import Mathlib

/-!
Verification of the opcuapp OPC UA client session layer
(`src/opcuapp/client/session.h`, `src/status_code.h`).

The session code is embedded shallowly: each C++ method of
`opcua::client::Session` becomes a pure function on an explicit state,
and the asynchronous callback structure becomes a step function over an
event alphabet (user calls, channel status events, and transport
completions).  Ghost fields (`createCalls`, `publishLog`, `recvLog`,
`statusLog`, ...) record the externally observable actions: which
`OpcUa_ClientApi_Begin*` submissions were made, which acknowledgement
lists went out on Publish requests, and which `status_changed` signals
were emitted.
-/

namespace Opcuapp

/-! ## Status codes (`src/status_code.h`)

`OpcUa_StatusCode` is a 32-bit code whose top two bits give the
severity: `00` = Good, `01` = Uncertain, `1x` = Bad.  The C macros are
`OpcUa_IsBad(x) = ((x) & 0x80000000) != 0`,
`OpcUa_IsGood(x) = ((x) & 0xC0000000) == 0`,
`OpcUa_IsUncertain(x) = ((x) & 0xC0000000) == 0x40000000`.
`StatusCode::operator bool` is `IsNotBad`. -/

def OpcUa_Good : Nat := 0
def OpcUa_Uncertain : Nat := 0x40000000
def OpcUa_Bad : Nat := 0x80000000

/-- `OpcUa_IsBad`: bit 31 of the (32-bit) code is set. -/
def isBad (c : Nat) : Bool := c / 2 ^ 31 % 2 = 1

/-- `OpcUa_IsGood`: the two severity bits (31, 30) are both clear. -/
def isGood (c : Nat) : Bool := c / 2 ^ 30 % 4 = 0

/-- `OpcUa_IsUncertain`: severity bits are `01`. -/
def isUncertain (c : Nat) : Bool := c / 2 ^ 30 % 4 = 1

/-- `StatusCode::operator bool() { return IsNotBad(); }` — the boolean
conversion every `if (!status_code)` check in `Session` goes through. -/
def statusToBool (c : Nat) : Bool := ! isBad c

/-! ## Value types

`NodeId` (`src/opcuapp/node_id.h`) wraps `OpcUa_NodeId`: a namespace
index plus a numeric / string / GUID / opaque identifier.  The session
layer treats it as an opaque value (only `swap` and `CopyTo` are used),
so the identifier payloads are modelled as their underlying values.
`ByteString` and `Double` are likewise opaque to the session logic. -/

inductive Identifier where
  | numeric (value : Nat)
  | string (value : Nat)
  | guid (value : Nat)
  | opaque_ (value : Nat)
deriving DecidableEq, Repr

structure NodeId where
  namespaceIndex : Nat
  identifier : Identifier
deriving DecidableEq, Repr

def NodeId.null : NodeId := ⟨0, .numeric 0⟩

/-- `(sub_id, sequence_number)` pair: `OpcUa_SubscriptionAcknowledgement`
carries exactly a `SubscriptionId` and a `SequenceNumber`. -/
structure Ack where
  subscriptionId : Nat
  sequenceNumber : Nat
deriving DecidableEq, Repr

/-! ## Session state (`class Session`, private fields) -/

/-- `struct SessionInfo` of `session.h`. -/
structure SessionInfo where
  session_id : NodeId
  authentication_token : NodeId
  revised_timeout : Nat
  server_nonce : Nat
  server_certificate : Nat
deriving DecidableEq, Repr

/-- The mutex-protected fields of `Session`.  `subscriptions_` is a
`std::map<SubscriptionId, NotificationHandler>`; handlers are keyed by
the subscription id, so the registry is modelled as the list of
registered ids (`std::map::emplace` does not overwrite an existing
key). -/
structure Session where
  created : Bool
  creation_requested : Bool
  status_code : Nat
  info : SessionInfo
  subscriptions : List Nat
  acknowledgements : List Ack
  sent_acknowledgements : List Ack
  publishing : Bool
deriving DecidableEq, Repr

/-- Field initializers of `Session`: `created_ = false`,
`creation_requested_ = false`, `status_code_{OpcUa_Bad}`, empty
containers, `publishing_ = false`. -/
def Session.init : Session where
  created := false
  creation_requested := false
  status_code := OpcUa_Bad
  info := ⟨NodeId.null, NodeId.null, 0, 0, 0⟩
  subscriptions := []
  acknowledgements := []
  sent_acknowledgements := []
  publishing := false

/-! ## The observable world

A `World` is the session state plus the channel's current status and
ghost observables: counts of outstanding requests, counts of `Begin*`
submission attempts, the acknowledgement list of every Publish request
handed to the transport (`publishLog`), every pair appended to the
pending-ack ledger by a data-bearing response (`recvLog`), pairs
dropped because the Publish carrying them failed to submit
(`lostAcks`), the `status_changed` emissions (`statusLog`), and the
number of `OnError` invocations (`faults`). -/

structure World where
  session : Session
  channel_status : Nat
  inflightCreate : Nat
  inflightActivate : Nat
  inflightPublish : Nat
  createCalls : Nat
  activateCalls : Nat
  publishCalls : Nat
  publishLog : List (List Ack)
  recvLog : List Ack
  lostAcks : List Ack
  statusLog : List Nat
  faults : Nat
deriving DecidableEq, Repr

def World.init : World where
  session := Session.init
  channel_status := OpcUa_Bad
  inflightCreate := 0
  inflightActivate := 0
  inflightPublish := 0
  createCalls := 0
  activateCalls := 0
  publishCalls := 0
  publishLog := []
  recvLog := []
  lostAcks := []
  statusLog := []
  faults := 0

/-! ## Session methods as world transformers

Each transformer mirrors one method of `session.h`.  A `submit : Nat`
argument is the status code returned by the corresponding
`OpcUa_ClientApi_Begin*` call (the transport's synchronous answer).  A
submission that returns a bad code does not put a request in flight and
the method calls `OnError`; a not-bad return puts exactly one request
in flight. -/

/-- `Session::OnError` / `Session::SetStatus`: store the code and emit
`status_changed`. -/
def World.onError (w : World) (c : Nat) : World :=
  { w with
    session := { w.session with status_code := c }
    statusLog := w.statusLog ++ [c]
    faults := w.faults + 1 }

/-- `Session::OnActivated`: set `status_code_ = OpcUa_Good`, store the
server nonce, emit `status_changed(OpcUa_Good)`. -/
def World.onActivated (w : World) (nonce : Nat) : World :=
  { w with
    session := { w.session with
      status_code := OpcUa_Good
      info := { w.session.info with server_nonce := nonce } }
    statusLog := w.statusLog ++ [OpcUa_Good] }

/-- `Session::Publish`: under the lock, return immediately if
`publishing_`; otherwise set `publishing_ = true`, move
`acknowledgements_` into the request and keep a copy in
`sent_acknowledgements_`; then call `OpcUa_ClientApi_BeginPublish` and
`OnError` on a bad submission status. -/
def World.publish (w : World) (submit : Nat) : World :=
  if w.session.publishing then w
  else
    let acks := w.session.acknowledgements
    let w1 := { w with
      session := { w.session with
        publishing := true
        acknowledgements := []
        sent_acknowledgements := acks }
      publishCalls := w.publishCalls + 1 }
    if isBad submit then
      { w1.onError submit with lostAcks := w1.lostAcks ++ acks }
    else
      { w1 with
        inflightPublish := w1.inflightPublish + 1
        publishLog := w1.publishLog ++ [acks] }

/-- `Session::Activate`: build the request (header from
`InitRequestHeader`), call `OpcUa_ClientApi_BeginActivateSession`,
`OnError` on a bad submission status. -/
def World.activate (w : World) (submit : Nat) : World :=
  let w1 := { w with activateCalls := w.activateCalls + 1 }
  if isBad submit then w1.onError submit
  else { w1 with inflightActivate := w1.inflightActivate + 1 }

/-- `Session::CommitCreate`: call `OpcUa_ClientApi_BeginCreateSession`,
`OnError` on a bad submission status. -/
def World.commitCreate (w : World) (submit : Nat) : World :=
  let w1 := { w with createCalls := w.createCalls + 1 }
  if isBad submit then w1.onError submit
  else { w1 with inflightCreate := w1.inflightCreate + 1 }

/-- `Session::Create`: `creation_requested_ = true;
if (channel_.status_code()) CommitCreate();` (the `if` uses
`StatusCode::operator bool`, i.e. `IsNotBad`). -/
def World.createOp (w : World) (submit : Nat) : World :=
  let w1 := { w with session := { w.session with creation_requested := true } }
  if isBad w1.channel_status then w1 else w1.commitCreate submit

/-- The lambda connected to `channel_.status_changed` in the `Session`
constructor: on a bad status do nothing; otherwise `CommitCreate` when
`!created_ && creation_requested_`, else `Activate` when `created_`.
The world also records the channel's new status. -/
def World.onChannelStatus (w : World) (code submit : Nat) : World :=
  let w1 := { w with channel_status := code }
  if isBad code then w1
  else if !w1.session.created && w1.session.creation_requested then
    w1.commitCreate submit
  else if w1.session.created then w1.activate submit
  else w1

/-- `Session::StartPublishing`: under the lock, `emplace` the handler
and read `publishing_`; outside the lock, call `Publish()` iff
`publishing_` was false. -/
def World.startPublishing (w : World) (subId submit : Nat) : World :=
  let subs :=
    if w.session.subscriptions.contains subId then w.session.subscriptions
    else w.session.subscriptions ++ [subId]
  let wasPublishing := w.session.publishing
  let w1 := { w with session := { w.session with subscriptions := subs } }
  if wasPublishing then w1 else w1.publish submit

/-- `Session::StopPublishing`: erase the subscription. -/
def World.stopPublishing (w : World) (subId : Nat) : World :=
  { w with session := { w.session with
      subscriptions := w.session.subscriptions.filter (· ≠ subId) } }

/-- `Session::Delete`: under the lock, clear `subscriptions_`,
`acknowledgements_`, `sent_acknowledgements_`, set `publishing_ =
false`.  Nothing else is touched. -/
def World.deleteOp (w : World) : World :=
  { w with session := { w.session with
      subscriptions := []
      acknowledgements := []
      sent_acknowledgements := []
      publishing := false } }

/-! ## Transport completions -/

/-- The fields of `CreateSessionResponse` the handler reads. -/
structure CreateResp where
  serviceResult : Nat
  sessionId : NodeId
  authenticationToken : NodeId
  revisedSessionTimeout : Nat
  serverNonce : Nat
  serverCertificate : Nat
deriving DecidableEq, Repr

/-- The fields of `ActivateSessionResponse` the handler reads. -/
structure ActivateResp where
  serviceResult : Nat
  serverNonce : Nat
deriving DecidableEq, Repr

/-- The fields of `PublishResponse` the handler reads. -/
structure PublishResp where
  serviceResult : Nat
  subscriptionId : Nat
  availableSequenceNumbers : List Nat
  moreNotifications : Bool
  sequenceNumber : Nat
  noOfNotificationData : Nat
  results : List Nat
deriving DecidableEq, Repr

/-- The `CreateSessionResponse` lambda of `Session::CommitCreate`: on a
bad `ServiceResult`, `OnError`; otherwise set `created_ = true`, swap
the five response fields into `info_`, then `Activate()`.  A completion
with no request in flight cannot happen (the transport completes each
request exactly once) and is a no-op. -/
def World.onCreateSessionResponse (w : World) (r : CreateResp) (submit : Nat) :
    World :=
  if w.inflightCreate = 0 then w
  else
    let w1 := { w with inflightCreate := w.inflightCreate - 1 }
    if isBad r.serviceResult then w1.onError r.serviceResult
    else
      let w2 := { w1 with
        session := { w1.session with
          created := true
          info := {
            session_id := r.sessionId
            authentication_token := r.authenticationToken
            revised_timeout := r.revisedSessionTimeout
            server_nonce := r.serverNonce
            server_certificate := r.serverCertificate } } }
      w2.activate submit

/-- The `ActivateSessionResponse` lambda of `Session::Activate`: on a
bad `ServiceResult`, `OnError`; otherwise `OnActivated(ServerNonce)`. -/
def World.onActivateSessionResponse (w : World) (r : ActivateResp) : World :=
  if w.inflightActivate = 0 then w
  else
    let w1 := { w with inflightActivate := w.inflightActivate - 1 }
    if isBad r.serviceResult then w1.onError r.serviceResult
    else w1.onActivated r.serverNonce

/-- `Session::OnPublishResponse`: `OnError` on a bad service status or
on the first bad per-ack result; when `NoOfNotificationData` is
non-zero, clear `publishing_`, clear `sent_acknowledgements_`, append
`(subscription_id, message.SequenceNumber)` to `acknowledgements_`;
then call `Publish()` (which returns immediately when `publishing_` is
still set). -/
def World.onPublishResponse (w : World) (r : PublishResp) (submit : Nat) :
    World :=
  if w.inflightPublish = 0 then w
  else
    let w1 := { w with inflightPublish := w.inflightPublish - 1 }
    if isBad r.serviceResult then w1.onError r.serviceResult
    else
      match r.results.find? (fun c => isBad c) with
      | some c => w1.onError c
      | none =>
        let w2 :=
          if r.noOfNotificationData ≠ 0 then
            { w1 with
              session := { w1.session with
                publishing := false
                sent_acknowledgements := []
                acknowledgements := w1.session.acknowledgements ++
                  [⟨r.subscriptionId, r.sequenceNumber⟩] }
              recvLog := w1.recvLog ++ [⟨r.subscriptionId, r.sequenceNumber⟩] }
          else w1
        w2.publish submit

/-! ## Event alphabet and runs -/

/-- External stimuli: the public calls the application can make, the
channel status events, and the transport completions.  Each event that
can trigger a `Begin*` submission carries the status the transport
returns for that submission. -/
inductive Event where
  | create (submit : Nat)
  | channelStatus (code : Nat) (submit : Nat)
  | startPublishing (subId : Nat) (submit : Nat)
  | stopPublishing (subId : Nat)
  | deleteSession
  | createSessionResponse (r : CreateResp) (submit : Nat)
  | activateSessionResponse (r : ActivateResp)
  | publishResponse (r : PublishResp) (submit : Nat)
deriving DecidableEq, Repr

def step (w : World) : Event → World
  | .create submit => w.createOp submit
  | .channelStatus code submit => w.onChannelStatus code submit
  | .startPublishing subId submit => w.startPublishing subId submit
  | .stopPublishing subId => w.stopPublishing subId
  | .deleteSession => w.deleteOp
  | .createSessionResponse r submit => w.onCreateSessionResponse r submit
  | .activateSessionResponse r => w.onActivateSessionResponse r
  | .publishResponse r submit => w.onPublishResponse r submit

/-- The world reached from a fresh `Session` by a sequence of events. -/
def run (es : List Event) : World := es.foldl step World.init

/-- Histories in which the application never calls `Delete()` (the spec
requires the caller to stop using the session after `delete()`). -/
def noDelete (es : List Event) : Prop := Event.deleteSession ∉ es

instance (es : List Event) : Decidable (noDelete es) := by
  unfold noDelete; infer_instance

/-! ## Request construction (`Session::InitRequestHeader` and the
request-building prologues of `Activate`, `Browse`, `Read`, `Publish`)

`InitRequestHeader` mutates a header in place while holding the session
lock; it is modelled as returning the header together with the session
state as left behind (`CopyTo` copies the token, so the state is
returned unchanged — this is the content of the copy-not-move claim). -/

structure RequestHeader where
  timeoutHint : Nat
  timestamp : Nat
  authenticationToken : NodeId
deriving DecidableEq, Repr

/-- `Session::InitRequestHeader`: `TimeoutHint = 60000`,
`Timestamp = OpcUa_DateTime_UtcNow()` (the `now` argument), and
`info_.authentication_token.CopyTo(header.AuthenticationToken)`. -/
def Session.initRequestHeader (s : Session) (now : Nat) :
    RequestHeader × Session :=
  ({ timeoutHint := 60000
     timestamp := now
     authenticationToken := s.info.authentication_token }, s)

structure ActivateRequestM where
  header : RequestHeader
deriving DecidableEq, Repr

/-- Request prologue of `Session::Activate`. -/
def Session.buildActivateRequest (s : Session) (now : Nat) :
    ActivateRequestM × Session :=
  let p := s.initRequestHeader now
  ({ header := p.1 }, p.2)

structure BrowseRequestM where
  header : RequestHeader
  noOfNodesToBrowse : Nat
deriving DecidableEq, Repr

/-- Request prologue of `Session::Browse` (the descriptions span is
passed to `BeginBrowse` by pointer; only its size matters here). -/
def Session.buildBrowseRequest (s : Session) (now descriptionCount : Nat) :
    BrowseRequestM × Session :=
  let p := s.initRequestHeader now
  ({ header := p.1, noOfNodesToBrowse := descriptionCount }, p.2)

structure ReadRequestM where
  header : RequestHeader
  noOfNodesToRead : Nat
deriving DecidableEq, Repr

/-- Request prologue of `Session::Read`. -/
def Session.buildReadRequest (s : Session) (now readIdCount : Nat) :
    ReadRequestM × Session :=
  let p := s.initRequestHeader now
  ({ header := p.1, noOfNodesToRead := readIdCount }, p.2)

structure PublishRequestM where
  header : RequestHeader
  acknowledgements : List Ack
deriving DecidableEq, Repr

/-- Request prologue of `Session::Publish` (after the lock-protected
block has produced the local `acknowledgements` vector). -/
def Session.buildPublishRequest (s : Session) (now : Nat) (acks : List Ack) :
    PublishRequestM × Session :=
  let p := s.initRequestHeader now
  ({ header := p.1, acknowledgements := acks }, p.2)

/-! ## Browse and Read (`Session::Browse`, `Session::Read`)

Neither method touches any session field (beyond reading the token for
the header); errors flow only through the operation's callback.  An
outcome records the session state left behind, the callback invocations
made, and the `status_changed` emissions (always none here). -/

/-- One invocation of a Browse/Read callback: the status and the
results span (`OpcUa_BrowseResult` / `OpcUa_DataValue` are opaque). -/
structure CallbackCall where
  status : Nat
  results : List Nat
deriving DecidableEq, Repr

structure OpOutcome where
  session : Session
  callbackCalls : List CallbackCall
  statusSignals : List Nat
deriving DecidableEq, Repr

/-- Fields of `BrowseResponse` read by the completion lambda. -/
structure BrowseResponse where
  serviceResult : Nat
  results : List Nat
deriving DecidableEq, Repr

/-- Fields of `ReadResponse` read by the completion lambda. -/
structure ReadResponse where
  serviceResult : Nat
  results : List Nat
deriving DecidableEq, Repr

/-- The synchronous part of `Session::Browse`: build the request and
call `BeginBrowse`; on a bad submission status invoke the callback
directly with `(status_code, {})`. -/
def Session.browseSubmit (s : Session) (now submit : Nat)
    (descriptions : List Nat) : BrowseRequestM × OpOutcome :=
  let p := s.buildBrowseRequest now descriptions.length
  if isBad submit then (p.1, ⟨p.2, [⟨submit, []⟩], []⟩)
  else (p.1, ⟨p.2, [], []⟩)

/-- The `BrowseResponse` lambda: `callback(ServiceResult, Results)`,
whatever the status. -/
def Session.onBrowseResponse (s : Session) (r : BrowseResponse) : OpOutcome :=
  ⟨s, [⟨r.serviceResult, r.results⟩], []⟩

/-- The synchronous part of `Session::Read`, symmetric to Browse. -/
def Session.readSubmit (s : Session) (now submit : Nat)
    (readIds : List Nat) : ReadRequestM × OpOutcome :=
  let p := s.buildReadRequest now readIds.length
  if isBad submit then (p.1, ⟨p.2, [⟨submit, []⟩], []⟩)
  else (p.1, ⟨p.2, [], []⟩)

/-- The `ReadResponse` lambda: `callback(ServiceResult, Results)`. -/
def Session.onReadResponse (s : Session) (r : ReadResponse) : OpOutcome :=
  ⟨s, [⟨r.serviceResult, r.results⟩], []⟩

/-! ## Theorems -/

/-- C7: after `Delete()` the subscription registry, the pending-ack
ledger and the inflight-ack ledger are empty and `publishing_` is
false; every other part of the session and of the observable world —
in particular the channel status, all submission counters, all
outstanding requests and all emitted signals — is untouched, and
`Delete()` cannot fail (it reports no error and emits no signal). -/
theorem delete_postcondition (w : World) :
    w.deleteOp.session.subscriptions = [] ∧
    w.deleteOp.session.acknowledgements = [] ∧
    w.deleteOp.session.sent_acknowledgements = [] ∧
    w.deleteOp.session.publishing = false ∧
    w.deleteOp.session.created = w.session.created ∧
    w.deleteOp.session.creation_requested = w.session.creation_requested ∧
    w.deleteOp.session.status_code = w.session.status_code ∧
    w.deleteOp.session.info = w.session.info ∧
    w.deleteOp.channel_status = w.channel_status ∧
    w.deleteOp.inflightCreate = w.inflightCreate ∧
    w.deleteOp.inflightActivate = w.inflightActivate ∧
    w.deleteOp.inflightPublish = w.inflightPublish ∧
    w.deleteOp.createCalls = w.createCalls ∧
    w.deleteOp.activateCalls = w.activateCalls ∧
    w.deleteOp.publishCalls = w.publishCalls ∧
    w.deleteOp.publishLog = w.publishLog ∧
    w.deleteOp.statusLog = w.statusLog ∧
    w.deleteOp.faults = w.faults := by
  simp [World.deleteOp]

/-- C8: every non-CreateSession request (ActivateSession, Browse, Read,
Publish) gets its header from `InitRequestHeader`:
`TimeoutHint = 60000`, `Timestamp` = the current time, and
`AuthenticationToken` a copy of `info_.authentication_token`; the
session state (in particular the stored token) is unchanged by header
construction. -/
theorem request_header_construction (s : Session)
    (now descriptionCount readIdCount : Nat) (acks : List Ack) :
    ((s.initRequestHeader now).1.timeoutHint = 60000 ∧
     (s.initRequestHeader now).1.timestamp = now ∧
     (s.initRequestHeader now).1.authenticationToken =
       s.info.authentication_token ∧
     (s.initRequestHeader now).2 = s) ∧
    ((s.buildActivateRequest now).1.header = (s.initRequestHeader now).1 ∧
     (s.buildActivateRequest now).2 = s) ∧
    ((s.buildBrowseRequest now descriptionCount).1.header =
       (s.initRequestHeader now).1 ∧
     (s.buildBrowseRequest now descriptionCount).2 = s) ∧
    ((s.buildReadRequest now readIdCount).1.header =
       (s.initRequestHeader now).1 ∧
     (s.buildReadRequest now readIdCount).2 = s) ∧
    ((s.buildPublishRequest now acks).1.header = (s.initRequestHeader now).1 ∧
     (s.buildPublishRequest now acks).2 = s) := by
  simp [Session.initRequestHeader, Session.buildActivateRequest,
    Session.buildBrowseRequest, Session.buildReadRequest,
    Session.buildPublishRequest]

/-- C9: Browse and Read errors are request-scoped: a synchronous
submission failure invokes the operation's callback directly with the
bad status and an empty result span, and a response (good or bad
`ServiceResult`) is passed to the callback as-is; in every case the
session state is unchanged — `status_code_` included — and no
`status_changed` signal is emitted. -/
theorem request_scoped_errors_do_not_fault (s : Session) (now submit : Nat)
    (descriptions readIds : List Nat) (br : BrowseResponse)
    (rr : ReadResponse) :
    ((s.browseSubmit now submit descriptions).2.session = s ∧
     (s.browseSubmit now submit descriptions).2.statusSignals = [] ∧
     (isBad submit = true →
       (s.browseSubmit now submit descriptions).2.callbackCalls =
         [⟨submit, []⟩]) ∧
     (isBad submit = false →
       (s.browseSubmit now submit descriptions).2.callbackCalls = []) ∧
     (s.onBrowseResponse br).session = s ∧
     (s.onBrowseResponse br).statusSignals = [] ∧
     (s.onBrowseResponse br).callbackCalls =
       [⟨br.serviceResult, br.results⟩]) ∧
    ((s.readSubmit now submit readIds).2.session = s ∧
     (s.readSubmit now submit readIds).2.statusSignals = [] ∧
     (isBad submit = true →
       (s.readSubmit now submit readIds).2.callbackCalls =
         [⟨submit, []⟩]) ∧
     (isBad submit = false →
       (s.readSubmit now submit readIds).2.callbackCalls = []) ∧
     (s.onReadResponse rr).session = s ∧
     (s.onReadResponse rr).statusSignals = [] ∧
     (s.onReadResponse rr).callbackCalls =
       [⟨rr.serviceResult, rr.results⟩]) := by
  refine ⟨⟨?_, ?_, ?_, ?_, ?_, ?_, ?_⟩, ⟨?_, ?_, ?_, ?_, ?_, ?_, ?_⟩⟩ <;>
    first
      | intro h <;>
          simp [Session.browseSubmit, Session.readSubmit,
            Session.buildBrowseRequest, Session.buildReadRequest,
            Session.initRequestHeader, Session.onBrowseResponse,
            Session.onReadResponse, h]
      | cases hb : isBad submit <;>
          simp [Session.browseSubmit, Session.readSubmit,
            Session.buildBrowseRequest, Session.buildReadRequest,
            Session.initRequestHeader, Session.onBrowseResponse,
            Session.onReadResponse, hb]

/-- C9 witness: a Read whose submission fails with `OpcUa_Bad` reports
the error only through its callback and leaves the session unchanged. -/
theorem request_scoped_errors_do_not_fault_witness :
    (Session.init.readSubmit 5 OpcUa_Bad []).2.session = Session.init ∧
    (Session.init.readSubmit 5 OpcUa_Bad []).2.statusSignals = [] ∧
    (Session.init.readSubmit 5 OpcUa_Bad []).2.callbackCalls =
      [⟨OpcUa_Bad, []⟩] ∧
    (Session.init.onBrowseResponse ⟨OpcUa_Bad, []⟩).session = Session.init :=
  have h := request_scoped_errors_do_not_fault Session.init 5 OpcUa_Bad []
    [] ⟨OpcUa_Bad, []⟩ ⟨OpcUa_Bad, []⟩
  ⟨h.2.1, h.2.2.1, h.2.2.2.1 (by decide), h.1.2.2.2.2.1⟩

/-- C2: evaluation of `OnPublishResponse` at a keepalive.  After one
Publish goes out (`startPublishing`) and the transport completes it
with a good service status, no bad ack results and
`NoOfNotificationData == 0`, the code does NOT treat it like a
data-bearing response: `publishing_` is left `true`, the inner
`Publish()` call returns at the gate without reaching `BeginPublish`
(`publishCalls` stays 1, `publishLog` still holds only the original
request, nothing in flight), so the Publish loop stalls.  The session
is not faulted, so nothing restarts it. -/
theorem keepalive_stalls_publish_loop :
    (run [.startPublishing 1 OpcUa_Good,
        .publishResponse ⟨OpcUa_Good, 1, [], false, 7, 0, []⟩ OpcUa_Good]
      ).session.publishing = true ∧
    (run [.startPublishing 1 OpcUa_Good,
        .publishResponse ⟨OpcUa_Good, 1, [], false, 7, 0, []⟩ OpcUa_Good]
      ).inflightPublish = 0 ∧
    (run [.startPublishing 1 OpcUa_Good,
        .publishResponse ⟨OpcUa_Good, 1, [], false, 7, 0, []⟩ OpcUa_Good]
      ).publishCalls = 1 ∧
    (run [.startPublishing 1 OpcUa_Good,
        .publishResponse ⟨OpcUa_Good, 1, [], false, 7, 0, []⟩ OpcUa_Good]
      ).publishLog = [[]] ∧
    (run [.startPublishing 1 OpcUa_Good,
        .publishResponse ⟨OpcUa_Good, 1, [], false, 7, 0, []⟩ OpcUa_Good]
      ).faults = 0 := by
  decide

/-- C1 counterexample: the claimed biconditional "`publishing_` is true
iff exactly one Publish request is in flight" is false.  Concrete
history: `startPublishing 1` puts one Publish in flight; the transport
completes it with a bad service status, `OnError` runs, and the handler
returns without touching `publishing_` — afterwards `publishing_` is
`true` while zero Publish requests are in flight. -/
theorem publishing_iff_inflight_counterexample :
    (run [.startPublishing 1 OpcUa_Good,
        .publishResponse ⟨OpcUa_Bad, 1, [], false, 0, 0, []⟩ OpcUa_Good]
      ).session.publishing = true ∧
    (run [.startPublishing 1 OpcUa_Good,
        .publishResponse ⟨OpcUa_Bad, 1, [], false, 0, 0, []⟩ OpcUa_Good]
      ).inflightPublish = 0 := by
  decide

/-- C3 counterexample: `Create()` is not idempotent when the channel is
connected.  After `channelStatus OpcUa_Good`, a first `Create()` makes
one `BeginCreateSession` call; a second `Create()` makes another
(`createCalls = 2`, a second request in flight), so the state reached
by the first call does not persist. -/
theorem create_idempotent_counterexample :
    (run [.channelStatus OpcUa_Good OpcUa_Good, .create OpcUa_Good,
        .create OpcUa_Good]).createCalls = 2 ∧
    (run [.channelStatus OpcUa_Good OpcUa_Good, .create OpcUa_Good]
      ).createCalls = 1 ∧
    run [.channelStatus OpcUa_Good OpcUa_Good, .create OpcUa_Good,
        .create OpcUa_Good] ≠
      run [.channelStatus OpcUa_Good OpcUa_Good, .create OpcUa_Good] := by
  decide

/-- C3 amended: `Create()` sets `creation_requested_` and is idempotent
only while the channel is not connected (a second call then changes
nothing and submits nothing); when the channel status is not bad, every
`Create()` call performs a fresh `BeginCreateSession` submission. -/
theorem create_idempotent_amended (w : World) (a b : Nat) :
    (isBad w.channel_status = true →
      step (step w (.create a)) (.create b) = step w (.create a)) ∧
    (isBad w.channel_status = false →
      (step w (.create a)).createCalls = w.createCalls + 1) := by
  constructor
  · intro h
    simp [step, World.createOp, h]
  · intro h
    cases hb : isBad a <;>
      simp [step, World.createOp, World.commitCreate, World.onError, h, hb]

/-- C3 amended witness: from the initial world (channel status
`OpcUa_Bad`) two `Create()` calls reach the same world as one; after
the channel comes up, a `Create()` call increments the
`BeginCreateSession` count. -/
theorem create_idempotent_amended_witness :
    step (step World.init (.create 0)) (.create 0) =
      step World.init (.create 0) ∧
    (step (run [.channelStatus OpcUa_Good OpcUa_Good]) (.create 0)
      ).createCalls =
      (run [.channelStatus OpcUa_Good OpcUa_Good]).createCalls + 1 :=
  ⟨(create_idempotent_amended World.init 0 0).1 (by decide),
   (create_idempotent_amended (run [.channelStatus OpcUa_Good OpcUa_Good])
      0 0).2 (by decide)⟩

/-- C5: the channel `status_changed` handler installed by the `Session`
constructor.  A bad status triggers nothing (the world only records the
new channel status).  A not-bad status triggers exactly one
`BeginCreateSession` when `creation_requested_ && !created_`, and
exactly one `BeginActivateSession` — and no `BeginCreateSession` — when
`created_`. -/
theorem channel_up_reaction (w : World) (code submit : Nat) :
    (isBad code = true →
      w.onChannelStatus code submit = { w with channel_status := code }) ∧
    (isBad code = false → w.session.created = false →
      w.session.creation_requested = true →
      (w.onChannelStatus code submit).createCalls = w.createCalls + 1 ∧
      (w.onChannelStatus code submit).activateCalls = w.activateCalls) ∧
    (isBad code = false → w.session.created = true →
      (w.onChannelStatus code submit).activateCalls = w.activateCalls + 1 ∧
      (w.onChannelStatus code submit).createCalls = w.createCalls) := by
  refine ⟨fun h => ?_, fun h hc hr => ?_, fun h hc => ?_⟩
  · simp [World.onChannelStatus, h]
  · cases hb : isBad submit <;>
      simp [World.onChannelStatus, World.commitCreate, World.onError,
        h, hc, hr, hb]
  · cases hb : isBad submit <;>
      simp [World.onChannelStatus, World.activate, World.onError,
        h, hc, hb]

/-- C5 witness: concrete instances of all three cases — a bad status
changes nothing but the recorded channel status; a good status with
`creation_requested_` set submits CreateSession; a good status on a
created session submits ActivateSession only. -/
theorem channel_up_reaction_witness :
    World.init.onChannelStatus OpcUa_Bad 0 =
      { World.init with channel_status := OpcUa_Bad } ∧
    ((run [.create 0]).onChannelStatus OpcUa_Good 0).createCalls =
      (run [.create 0]).createCalls + 1 ∧
    (({ World.init with
        session := { Session.init with created := true } } : World
      ).onChannelStatus OpcUa_Good 0).activateCalls =
      ({ World.init with
        session := { Session.init with created := true } } : World
      ).activateCalls + 1 :=
  ⟨(channel_up_reaction World.init OpcUa_Bad 0).1 (by decide),
   ((channel_up_reaction (run [.create 0]) OpcUa_Good 0).2.1 (by decide)
      (by decide) (by decide)).1,
   ((channel_up_reaction
      { World.init with session := { Session.init with created := true } }
      OpcUa_Good 0).2.2 (by decide) (by decide)).1⟩

/-- C6: the CreateSession completion handler.  On a not-bad
`ServiceResult` it sets `created_ = true`, moves the five fields of the
response into `info_`, and submits ActivateSession (one
`BeginActivateSession` call).  On a bad `ServiceResult` it runs
`OnError`: `status_code_` becomes the bad code, `status_changed` emits
it, and `info_` and `created_` are untouched. -/
theorem create_session_response_handling (w : World) (r : CreateResp)
    (submit : Nat) (h : 0 < w.inflightCreate) :
    (isBad r.serviceResult = false →
      (w.onCreateSessionResponse r submit).session.created = true ∧
      (w.onCreateSessionResponse r submit).session.info =
        ⟨r.sessionId, r.authenticationToken, r.revisedSessionTimeout,
          r.serverNonce, r.serverCertificate⟩ ∧
      (w.onCreateSessionResponse r submit).activateCalls =
        w.activateCalls + 1) ∧
    (isBad r.serviceResult = true →
      (w.onCreateSessionResponse r submit).session.status_code =
        r.serviceResult ∧
      (w.onCreateSessionResponse r submit).statusLog =
        w.statusLog ++ [r.serviceResult] ∧
      (w.onCreateSessionResponse r submit).session.created =
        w.session.created ∧
      (w.onCreateSessionResponse r submit).session.info = w.session.info ∧
      (w.onCreateSessionResponse r submit).activateCalls =
        w.activateCalls) := by
  have hne : w.inflightCreate ≠ 0 := Nat.pos_iff_ne_zero.mp h
  refine ⟨fun hg => ?_, fun hb => ?_⟩
  · cases hs : isBad submit <;>
      simp [World.onCreateSessionResponse, World.activate, World.onError,
        hne, hg, hs]
  · simp [World.onCreateSessionResponse, World.onError, hne, hb]

/-- C6 witness: with one CreateSession in flight, a good response with
concrete fields populates `info_` and submits ActivateSession; a bad
response faults the session and leaves `info_` and `created_` alone. -/
theorem create_session_response_handling_witness :
    (({ World.init with inflightCreate := 1 } : World
      ).onCreateSessionResponse
        ⟨OpcUa_Good, ⟨0, .numeric 100⟩, ⟨0, .numeric 101⟩, 60000, 3, 4⟩ 0
      ).session.info =
      ⟨⟨0, .numeric 100⟩, ⟨0, .numeric 101⟩, 60000, 3, 4⟩ ∧
    (({ World.init with inflightCreate := 1 } : World
      ).onCreateSessionResponse
        ⟨OpcUa_Bad, ⟨0, .numeric 100⟩, ⟨0, .numeric 101⟩, 60000, 3, 4⟩ 0
      ).session.status_code = OpcUa_Bad :=
  ⟨((create_session_response_handling { World.init with inflightCreate := 1 }
      ⟨OpcUa_Good, ⟨0, .numeric 100⟩, ⟨0, .numeric 101⟩, 60000, 3, 4⟩ 0
      (by decide)).1 (by decide)).2.1,
   ((create_session_response_handling { World.init with inflightCreate := 1 }
      ⟨OpcUa_Bad, ⟨0, .numeric 100⟩, ⟨0, .numeric 101⟩, 60000, 3, 4⟩ 0
      (by decide)).2 (by decide)).1⟩

/-- Uncertain severity (`bits 31,30 = 01`) implies `OpcUa_IsBad` is
false, so `StatusCode::operator bool` lets an Uncertain code through. -/
lemma isBad_false_of_isUncertain (c : Nat) (h : isUncertain c = true) :
    isBad c = false := by
  have h30 : c / 2 ^ 30 % 4 = 1 := by simpa [isUncertain] using h
  have h31 : c / 2 ^ 31 = c / 2 ^ 30 / 2 := by
    rw [Nat.div_div_eq_div_mul]
    norm_num
  simp only [isBad, h31]
  simp
  omega

/-- C10: every error check in `Session` goes through
`StatusCode::operator bool` = `IsNotBad`, so an Uncertain code passes.
Consequences: an Uncertain `ServiceResult` on a CreateSession response
is handled exactly like a Good one (`info_` populated, ActivateSession
submitted), an Uncertain Publish response is handled exactly like a
Good one, and an Uncertain ActivateSession response still sets the
session status to `OpcUa_Good` and emits `status_changed(Good)`. -/
theorem uncertain_treated_as_success (c nonce submit : Nat) (w : World)
    (r : CreateResp) (p : PublishResp) :
    (isUncertain c = true → statusToBool c = true) ∧
    (isUncertain c = true →
      w.onCreateSessionResponse { r with serviceResult := c } submit =
        w.onCreateSessionResponse { r with serviceResult := OpcUa_Good }
          submit) ∧
    (isUncertain c = true →
      w.onPublishResponse { p with serviceResult := c } submit =
        w.onPublishResponse { p with serviceResult := OpcUa_Good } submit) ∧
    (isUncertain c = true → 0 < w.inflightActivate →
      (w.onActivateSessionResponse ⟨c, nonce⟩).session.status_code =
        OpcUa_Good ∧
      (w.onActivateSessionResponse ⟨c, nonce⟩).statusLog =
        w.statusLog ++ [OpcUa_Good]) := by
  have hg : isBad OpcUa_Good = false := by decide
  refine ⟨fun h => ?_, fun h => ?_, fun h => ?_, fun h ha => ?_⟩
  · simp [statusToBool, isBad_false_of_isUncertain c h]
  · simp [World.onCreateSessionResponse, isBad_false_of_isUncertain c h, hg]
  · simp [World.onPublishResponse, isBad_false_of_isUncertain c h, hg]
  · have hne : w.inflightActivate ≠ 0 := Nat.pos_iff_ne_zero.mp ha
    simp [World.onActivateSessionResponse, World.onActivated,
      isBad_false_of_isUncertain c h, hne]

/-- C10 witness: at the concrete code `OpcUa_Uncertain` the boolean
conversion yields true, an Uncertain CreateSession response is handled
exactly like a Good one, and an Uncertain ActivateSession response
leaves the session status `OpcUa_Good`. -/
theorem uncertain_treated_as_success_witness :
    statusToBool OpcUa_Uncertain = true ∧
    ({ World.init with inflightCreate := 1 } : World).onCreateSessionResponse
        ⟨OpcUa_Uncertain, ⟨0, .numeric 100⟩, ⟨0, .numeric 101⟩, 60000, 3, 4⟩
        0 =
      ({ World.init with inflightCreate := 1 } : World
        ).onCreateSessionResponse
        ⟨OpcUa_Good, ⟨0, .numeric 100⟩, ⟨0, .numeric 101⟩, 60000, 3, 4⟩ 0 ∧
    (({ World.init with inflightActivate := 1 } : World
      ).onActivateSessionResponse ⟨OpcUa_Uncertain, 9⟩
      ).session.status_code = OpcUa_Good :=
  have h := uncertain_treated_as_success OpcUa_Uncertain 9 0
    { World.init with inflightCreate := 1, inflightActivate := 1 }
    ⟨OpcUa_Uncertain, ⟨0, .numeric 100⟩, ⟨0, .numeric 101⟩, 60000, 3, 4⟩
    ⟨OpcUa_Uncertain, 1, [], false, 0, 0, []⟩
  have h2 := uncertain_treated_as_success OpcUa_Uncertain 9 0
    { World.init with inflightCreate := 1 }
    ⟨OpcUa_Uncertain, ⟨0, .numeric 100⟩, ⟨0, .numeric 101⟩, 60000, 3, 4⟩
    ⟨OpcUa_Uncertain, 1, [], false, 0, 0, []⟩
  have h3 := uncertain_treated_as_success OpcUa_Uncertain 9 0
    { World.init with inflightActivate := 1 }
    ⟨OpcUa_Uncertain, ⟨0, .numeric 100⟩, ⟨0, .numeric 101⟩, 60000, 3, 4⟩
    ⟨OpcUa_Uncertain, 1, [], false, 0, 0, []⟩
  ⟨h.1 (by decide), h2.2.1 (by decide), (h3.2.2.2 (by decide) (by decide)).1⟩

/-! ## The single-flight Publish invariant (delete-free histories) -/

/-- At most one Publish request is outstanding, and an outstanding
Publish implies the `publishing_` gate is set (equivalently: when the
gate is clear nothing is outstanding). -/
def pubInv (w : World) : Prop :=
  w.inflightPublish ≤ 1 ∧
  (w.session.publishing = false → w.inflightPublish = 0)

lemma pubInv_of_zero {w : World} (h : w.inflightPublish = 0) : pubInv w :=
  ⟨by omega, fun _ => h⟩

lemma pubInv_publish {w : World} (c : Nat) (h : pubInv w) :
    pubInv (w.publish c) := by
  unfold World.publish
  split
  · exact h
  · rename_i hp
    have h0 : w.inflightPublish = 0 := h.2 (by
      cases hv : w.session.publishing
      · rfl
      · exact absurd hv hp)
    split
    · exact pubInv_of_zero h0
    · exact ⟨by show w.inflightPublish + 1 ≤ 1; omega,
        fun hf => Bool.noConfusion hf⟩

lemma pubInv_commitCreate {w : World} (c : Nat) (h : pubInv w) :
    pubInv (w.commitCreate c) := by
  unfold World.commitCreate
  split <;> exact h

lemma pubInv_activate {w : World} (c : Nat) (h : pubInv w) :
    pubInv (w.activate c) := by
  unfold World.activate
  split <;> exact h

lemma pubInv_step {w : World} {e : Event} (he : e ≠ Event.deleteSession)
    (h : pubInv w) : pubInv (step w e) := by
  cases e with
  | create submit =>
    show pubInv (w.createOp submit)
    unfold World.createOp
    dsimp only
    split
    · exact h
    · exact pubInv_commitCreate submit h
  | channelStatus code submit =>
    show pubInv (w.onChannelStatus code submit)
    unfold World.onChannelStatus
    dsimp only
    split
    · exact h
    · split
      · exact pubInv_commitCreate submit h
      · split
        · exact pubInv_activate submit h
        · exact h
  | startPublishing subId submit =>
    show pubInv (w.startPublishing subId submit)
    unfold World.startPublishing
    dsimp only
    split
    · exact h
    · exact pubInv_publish submit h
  | stopPublishing subId => exact h
  | deleteSession => exact absurd rfl he
  | createSessionResponse r submit =>
    show pubInv (w.onCreateSessionResponse r submit)
    unfold World.onCreateSessionResponse
    split
    · exact h
    · split
      · exact h
      · exact pubInv_activate submit h
  | activateSessionResponse r =>
    show pubInv (w.onActivateSessionResponse r)
    unfold World.onActivateSessionResponse
    split
    · exact h
    · split
      · exact h
      · exact h
  | publishResponse r submit =>
    show pubInv (w.onPublishResponse r submit)
    unfold World.onPublishResponse
    split
    · exact h
    · rename_i h0
      have h1 : w.inflightPublish - 1 = 0 := by
        have := h.1
        omega
      split
      · exact pubInv_of_zero h1
      · split
        · exact pubInv_of_zero h1
        · apply pubInv_publish
          split
          · exact pubInv_of_zero h1
          · exact pubInv_of_zero h1

lemma pubInv_foldl (es : List Event) :
    ∀ w : World, pubInv w → (∀ e ∈ es, e ≠ Event.deleteSession) →
      pubInv (es.foldl step w) := by
  induction es with
  | nil => exact fun w h _ => h
  | cons e es ih =>
    intro w h hall
    exact ih (step w e) (pubInv_step (hall e (by simp)) h)
      (fun x hx => hall x (by simp [hx]))

lemma pubInv_run (es : List Event) (h : noDelete es) : pubInv (run es) :=
  pubInv_foldl es World.init (pubInv_of_zero rfl)
    (fun _ he heq => h (heq ▸ he))

/-- C1 amended: the single-flight direction of the claim.  In every
history without `Delete()`, at most one Publish request is in flight,
and one in flight forces `publishing_ = true`; `Publish()` called while
`publishing_` is true returns immediately, changing nothing and
submitting nothing; and `StartPublishing` while `publishing_` is true
(hence while a Publish is in flight) reaches no `BeginPublish` call.
The converse direction of the claimed biconditional — `publishing_`
true implies a Publish in flight — is false (see the fault
counterexample), and after `Delete()` the gate is reset while a Publish
may still be in flight, so delete-free histories are required. -/
theorem single_flight_publish (es : List Event) (w : World)
    (c subId : Nat) :
    (noDelete es →
      (run es).inflightPublish ≤ 1 ∧
      ((run es).inflightPublish = 1 →
        (run es).session.publishing = true)) ∧
    (w.session.publishing = true → w.publish c = w) ∧
    (w.session.publishing = true →
      (w.startPublishing subId c).publishCalls = w.publishCalls ∧
      (w.startPublishing subId c).inflightPublish = w.inflightPublish ∧
      (w.startPublishing subId c).publishLog = w.publishLog) := by
  refine ⟨fun hnd => ?_, fun hp => ?_, fun hp => ?_⟩
  · have h := pubInv_run es hnd
    refine ⟨h.1, fun h1 => ?_⟩
    cases hpub : (run es).session.publishing
    · rw [h.2 hpub] at h1
      exact absurd h1 (by omega)
    · rfl
  · simp [World.publish, hp]
  · simp [World.startPublishing, hp]

/-- C1 amended witness: after `startPublishing 1` one Publish is in
flight and the gate is set; `Publish()` is then a no-op, and a second
`startPublishing` reaches no `BeginPublish` call. -/
theorem single_flight_publish_witness :
    (run [.startPublishing 1 OpcUa_Good]).inflightPublish ≤ 1 ∧
    (run [.startPublishing 1 OpcUa_Good]).session.publishing = true ∧
    (run [.startPublishing 1 OpcUa_Good]).publish 0 =
      run [.startPublishing 1 OpcUa_Good] ∧
    ((run [.startPublishing 1 OpcUa_Good]).startPublishing 2 0
      ).publishCalls =
      (run [.startPublishing 1 OpcUa_Good]).publishCalls :=
  have h := single_flight_publish [.startPublishing 1 OpcUa_Good]
    (run [.startPublishing 1 OpcUa_Good]) 0 2
  ⟨(h.1 (by decide)).1, (h.1 (by decide)).2 (by decide),
    h.2.1 (by decide), (h.2.2 (by decide)).1⟩

/-! ## Acknowledgement accounting

Conservation of `(sub_id, seq)` pairs: every pair appended to the
pending ledger (`recvLog` mirrors the appends) is either still pending,
was carried on exactly one outbound Publish (`publishLog`), or was lost
when the Publish carrying it failed to submit (`lostAcks`, which
coincides with a fault).  In fault-free worlds the pending ledger is
empty between steps and the conservation is an exact count equality. -/

/-- Count balance for one pair: carried + pending + lost never exceeds
received, and while no fault has occurred nothing is lost and
carried + pending equals received exactly. -/
def ackBal (p : Ack) (w : World) : Prop :=
  w.publishLog.flatten.count p + w.session.acknowledgements.count p +
      w.lostAcks.count p ≤ w.recvLog.count p ∧
  (w.faults = 0 →
    w.lostAcks = [] ∧
    w.publishLog.flatten.count p + w.session.acknowledgements.count p =
      w.recvLog.count p)

/-- The step-boundary invariant: the balance, plus the fact that in a
fault-free world the pending ledger has already been flushed (every
data-bearing response immediately re-publishes). -/
def ackInv (p : Ack) (w : World) : Prop :=
  ackBal p w ∧ (w.faults = 0 → w.session.acknowledgements = [])

lemma ackInv_onError {p : Ack} {w : World} (c : Nat) (h : ackBal p w) :
    ackInv p (w.onError c) :=
  ⟨⟨h.1, fun hf => absurd hf (Nat.succ_ne_zero _)⟩,
    fun hf => absurd hf (Nat.succ_ne_zero _)⟩

lemma ackInv_publish_of_gate {p : Ack} {w : World} (c : Nat)
    (hp : w.session.publishing = false) (h : ackBal p w) :
    ackInv p (w.publish c) := by
  unfold World.publish
  split
  · rename_i hg
    rw [hp] at hg
    exact Bool.noConfusion hg
  · split
    · dsimp only [World.onError]
      refine
        ⟨⟨?_, fun hf => absurd (show w.faults + 1 = 0 from hf) (by omega)⟩,
          fun hf => absurd (show w.faults + 1 = 0 from hf) (by omega)⟩
      have h1 := h.1
      simp only [List.count_append, List.count_nil]
      omega
    · dsimp only
      refine ⟨⟨?_, fun hf => ?_⟩, fun _ => rfl⟩
      · have h1 := h.1
        simp only [List.flatten_append, List.flatten_cons, List.flatten_nil,
          List.append_nil, List.count_append, List.count_nil]
        omega
      · have h2 := h.2 hf
        refine ⟨h2.1, ?_⟩
        have h3 := h2.2
        simp only [List.flatten_append, List.flatten_cons, List.flatten_nil,
          List.append_nil, List.count_append, List.count_nil]
        omega

lemma ackInv_publish {p : Ack} {w : World} (c : Nat) (h : ackInv p w) :
    ackInv p (w.publish c) := by
  cases hp : w.session.publishing
  · exact ackInv_publish_of_gate c hp h.1
  · unfold World.publish
    split
    · exact h
    · rename_i hg
      exact absurd hp hg

lemma ackInv_commitCreate {p : Ack} {w : World} (c : Nat)
    (h : ackInv p w) : ackInv p (w.commitCreate c) := by
  unfold World.commitCreate
  split
  · exact ackInv_onError _ h.1
  · exact h

lemma ackInv_activate {p : Ack} {w : World} (c : Nat) (h : ackInv p w) :
    ackInv p (w.activate c) := by
  unfold World.activate
  split
  · exact ackInv_onError _ h.1
  · exact h

lemma ackInv_delete {p : Ack} {w : World} (h : ackInv p w) :
    ackInv p w.deleteOp := by
  refine ⟨⟨?_, fun hf => ?_⟩, fun _ => rfl⟩
  · have h1 := h.1.1
    simp only [World.deleteOp, List.count_nil]
    omega
  · have h2 := h.1.2 hf
    have h3 := h.2 hf
    refine ⟨h2.1, ?_⟩
    have h4 := h2.2
    rw [h3] at h4
    simpa using h4

lemma ackInv_step {p : Ack} {w : World} (e : Event) (h : ackInv p w) :
    ackInv p (step w e) := by
  cases e with
  | create submit =>
    show ackInv p (w.createOp submit)
    unfold World.createOp
    dsimp only
    split
    · exact h
    · exact ackInv_commitCreate submit h
  | channelStatus code submit =>
    show ackInv p (w.onChannelStatus code submit)
    unfold World.onChannelStatus
    dsimp only
    split
    · exact h
    · split
      · exact ackInv_commitCreate submit h
      · split
        · exact ackInv_activate submit h
        · exact h
  | startPublishing subId submit =>
    show ackInv p (w.startPublishing subId submit)
    unfold World.startPublishing
    dsimp only
    split
    · exact h
    · exact ackInv_publish submit h
  | stopPublishing subId => exact h
  | deleteSession => exact ackInv_delete h
  | createSessionResponse r submit =>
    show ackInv p (w.onCreateSessionResponse r submit)
    unfold World.onCreateSessionResponse
    dsimp only
    split
    · exact h
    · split
      · exact ackInv_onError _ h.1
      · exact ackInv_activate submit h
  | activateSessionResponse r =>
    show ackInv p (w.onActivateSessionResponse r)
    unfold World.onActivateSessionResponse
    dsimp only
    split
    · exact h
    · split
      · exact ackInv_onError _ h.1
      · exact h
  | publishResponse r submit =>
    show ackInv p (w.onPublishResponse r submit)
    unfold World.onPublishResponse
    dsimp only
    split
    · exact h
    · split
      · exact ackInv_onError _ h.1
      · split
        · exact ackInv_onError _ h.1
        · split
          · apply ackInv_publish_of_gate
            · rfl
            · have h1 := h.1.1
              have h2 := h.1.2
              refine ⟨?_, fun hf => ?_⟩
              · simp only [List.count_append]
                omega
              · have h3 := h2 hf
                refine ⟨h3.1, ?_⟩
                have h4 := h3.2
                simp only [List.count_append]
                omega
          · exact ackInv_publish submit h

lemma ackInv_run (es : List Event) (p : Ack) : ackInv p (run es) := by
  unfold run
  have hinit : ackInv p World.init :=
    ⟨⟨Nat.le.refl, fun _ => ⟨rfl, rfl⟩⟩, fun _ => rfl⟩
  generalize World.init = w at hinit ⊢
  induction es generalizing w with
  | nil => exact hinit
  | cons e es ih => exact ih (step w e) (ackInv_step e hinit)

/-- C4: acknowledgement exactly-once.  For every `(sub_id, seq)` pair,
in every reachable world the number of times the pair was carried on an
outbound Publish, plus the occurrences still pending in
`acknowledgements_`, plus the occurrences lost to a failed Publish
submission, never exceeds the number of times the pair was received in
a data-bearing Publish response (at-most-once, even across faults and
`Delete()`); and as long as the session has not faulted, nothing is
pending or lost, so each received pair has been carried on exactly one
outbound Publish. -/
theorem ack_exactly_once (es : List Event) (p : Ack) :
    ((run es).publishLog.flatten.count p +
        (run es).session.acknowledgements.count p +
        (run es).lostAcks.count p ≤ (run es).recvLog.count p) ∧
    ((run es).faults = 0 →
      (run es).session.acknowledgements = [] ∧
      (run es).lostAcks = [] ∧
      (run es).publishLog.flatten.count p = (run es).recvLog.count p) := by
  have h := ackInv_run es p
  refine ⟨h.1.1, fun hf => ?_⟩
  have ha := h.2 hf
  have hb := h.1.2 hf
  refine ⟨ha, hb.1, ?_⟩
  have hc := hb.2
  rw [ha] at hc
  simpa using hc

/-- C4 witness: after one data-bearing response carrying
`(sub_id 1, seq 7)`, the session is fault-free, the ledgers are empty,
and the pair was carried on exactly one outbound Publish. -/
theorem ack_exactly_once_witness :
    (run [.startPublishing 1 OpcUa_Good,
        .publishResponse ⟨OpcUa_Good, 1, [], false, 7, 1, []⟩ OpcUa_Good]
      ).session.acknowledgements = [] ∧
    (run [.startPublishing 1 OpcUa_Good,
        .publishResponse ⟨OpcUa_Good, 1, [], false, 7, 1, []⟩ OpcUa_Good]
      ).lostAcks = [] ∧
    (run [.startPublishing 1 OpcUa_Good,
        .publishResponse ⟨OpcUa_Good, 1, [], false, 7, 1, []⟩ OpcUa_Good]
      ).publishLog.flatten.count ⟨1, 7⟩ =
      (run [.startPublishing 1 OpcUa_Good,
        .publishResponse ⟨OpcUa_Good, 1, [], false, 7, 1, []⟩ OpcUa_Good]
      ).recvLog.count ⟨1, 7⟩ :=
  (ack_exactly_once
    [.startPublishing 1 OpcUa_Good,
      .publishResponse ⟨OpcUa_Good, 1, [], false, 7, 1, []⟩ OpcUa_Good]
    ⟨1, 7⟩).2 (by decide)

end Opcuapp
